import Mathlib

/-!
Shallow embedding of the glTF scene/material post-processor
(`utils/gltf-material-modifier.py`): quaternion composition, scene
reorientation and PBR material-factor patching, together with theorems
checking the specification's claims against this embedding.

Quaternions are stored as 4-element arrays in the JSON document; we model
them as a structure with one field per array index (`c0` … `c3`).  The glTF
format stores rotation components in the order `[x, y, z, w]`, so under the
document convention `c0 = x`, `c1 = y`, `c2 = z`, `c3 = w`.  Components are
modelled as exact reals (the Python code uses floats; every concrete input
used below makes the float computation exact, so the idealisation is
faithful on those inputs).
-/

structure Quat where
  c0 : ℝ
  c1 : ℝ
  c2 : ℝ
  c3 : ℝ

/-- `multiply_quaternions(q1, q2)` from the source, verbatim: row `k` of the
result is the source's `k`-th list entry with `q1[i]` rendered as `q1.ci`. -/
def multiply_quaternions (q1 q2 : Quat) : Quat :=
  { c0 := q1.c0 * q2.c0 - q1.c1 * q2.c1 - q1.c2 * q2.c2 - q1.c3 * q2.c3
    c1 := q1.c0 * q2.c1 + q1.c1 * q2.c0 + q1.c2 * q2.c3 - q1.c3 * q2.c2
    c2 := q1.c0 * q2.c2 - q1.c1 * q2.c3 + q1.c2 * q2.c0 + q1.c3 * q2.c1
    c3 := q1.c0 * q2.c3 + q1.c1 * q2.c2 - q1.c2 * q2.c1 + q1.c3 * q2.c0 }

/-- The Hamilton product of two quaternions stored in document component
order `[x, y, z, w]` (so `x = c0`, `y = c1`, `z = c2`, `w = c3`), written
from the specification's four component equations.  This is the comparison
definition for the spec's formula; `multiply_quaternions` above is the code. -/
def hamilton_xyzw (q1 q2 : Quat) : Quat :=
  { c0 := q1.c3 * q2.c0 + q1.c0 * q2.c3 + q1.c1 * q2.c2 - q1.c2 * q2.c1
    c1 := q1.c3 * q2.c1 - q1.c0 * q2.c2 + q1.c1 * q2.c3 + q1.c2 * q2.c0
    c2 := q1.c3 * q2.c2 + q1.c0 * q2.c1 - q1.c1 * q2.c0 + q1.c2 * q2.c3
    c3 := q1.c3 * q2.c3 - q1.c0 * q2.c0 - q1.c1 * q2.c1 - q1.c2 * q2.c2 }

/-- The identity quaternion in document order `[x, y, z, w]`. -/
def identity_xyzw : Quat := ⟨0, 0, 0, 1⟩

noncomputable def NINETY_DEG_X_ROTATION : Quat :=
  ⟨Real.sqrt 0.5, 0, 0, Real.sqrt 0.5⟩

/-!
The document model.  A glTF document is a JSON tree; the script reads and
writes only the fields modelled below, while every other key is opaque and
carried through untouched.  Each structure therefore has an `extra` field
holding its unrecognized key/value pairs.  Missing keys are `none`; node
indices are natural numbers (the glTF schema requires non-negative integer
indices).  Python's falsiness test `not d.get(k)` on a list-valued key is
true exactly when the key is missing or its list is empty.
-/

structure Pbr where
  metallicFactor : Option ℝ
  roughnessFactor : Option ℝ
  extra : List (String × String)

/-- The empty `pbrMetallicRoughness` dict `{}` that `setdefault` inserts. -/
def Pbr.empty : Pbr := ⟨none, none, []⟩

structure Material where
  pbrMetallicRoughness : Option Pbr
  extra : List (String × String)

structure Node where
  name : Option String
  rotation : Option Quat
  children : Option (List ℕ)
  extra : List (String × String)

structure Scene where
  nodes : Option (List ℕ)
  extra : List (String × String)
deriving DecidableEq

structure Gltf where
  scenes : Option (List Scene)
  nodes : Option (List Node)
  materials : Option (List Material)
  extra : List (String × String)

/-- Python exceptions that `reorient_scene` can raise: `KeyError` from
`gltf_data['nodes']` when the key is absent, `IndexError` from indexing the
node list out of range. -/
inductive PyErr where
  | keyError : String → PyErr
  | indexError : PyErr
deriving DecidableEq

/-- `reorient_scene(gltf_data)` from the source.  The Python mutates the
document in place; here the updated document is returned, with `Except`
recording the exceptions the Python code can raise.  The guard
`not gltf_data.get('scenes') or not gltf_data['scenes'][0].get('nodes')`
returns the document unchanged; with exactly one top-level node the root
node's rotation is composed (or set); otherwise a synthetic root is
appended and the scene's node list replaced by its index.
`rotate_root` is the single-root update: if the root node already has a
`rotation`, replace it with
`multiply_quaternions(root['rotation'], NINETY_DEG_X_ROTATION)`; otherwise
set `rotation` to the fixed quaternion. -/
noncomputable def rotate_root (root : Node) : Node :=
  match root.rotation with
  | some r =>
    { root with rotation := some (multiply_quaternions r NINETY_DEG_X_ROTATION) }
  | none => { root with rotation := some NINETY_DEG_X_ROTATION }

noncomputable def reorient_scene (g : Gltf) : Except PyErr Gltf :=
  match g.scenes with
  | none => .ok g
  | some [] => .ok g
  | some (scene0 :: rest) =>
    match scene0.nodes with
    | none => .ok g
    | some [] => .ok g
    | some (i :: is) =>
      if is = [] then
        -- len(scene['nodes']) == 1: rotate the single root in place
        match g.nodes with
        | none => .error (.keyError "nodes")
        | some nodes =>
          if h : i < nodes.length then
            .ok { g with nodes := some (nodes.set i (rotate_root nodes[i])) }
          else .error .indexError
      else
        -- multiple top-level nodes: synthesize "ReorientedRoot"
        match g.nodes with
        | none => .error (.keyError "nodes")
        | some nodes =>
          let new_root : Node :=
            { name := some "ReorientedRoot"
              rotation := some NINETY_DEG_X_ROTATION
              children := some (i :: is)
              extra := [] }
          .ok { g with
                scenes := some ({ scene0 with nodes := some [nodes.length] } :: rest)
                nodes := some (nodes ++ [new_root]) }

/-- Python's `max(0, min(1, v))` from the material loop. -/
noncomputable def clamp01 (v : ℝ) : ℝ := max 0 (min 1 v)

/-- The body of the material loop in `modify_gltf`: `setdefault` ensures a
`pbrMetallicRoughness` dict exists, then each factor is written when absent
or when `override` is set. -/
noncomputable def patch_material (metallic roughness : ℝ) (override : Bool)
    (m : Material) : Material :=
  let pbr0 := m.pbrMetallicRoughness.getD Pbr.empty
  let pbr1 :=
    if pbr0.metallicFactor = none ∨ override = true then
      { pbr0 with metallicFactor := some (clamp01 metallic) }
    else pbr0
  let pbr2 :=
    if pbr1.roughnessFactor = none ∨ override = true then
      { pbr1 with roughnessFactor := some (clamp01 roughness) }
    else pbr1
  { m with pbrMetallicRoughness := some pbr2 }

/-- The materials stage of `modify_gltf`: if `'materials' in gltf_data`,
patch every material; otherwise log a warning and leave the document
unchanged. -/
noncomputable def apply_factors (g : Gltf) (metallic roughness : ℝ)
    (override : Bool) : Gltf :=
  match g.materials with
  | none => g
  | some mats =>
    { g with materials := some (mats.map (patch_material metallic roughness override)) }

/-- The in-memory core of `modify_gltf` (file I/O stripped): optionally
reorient, then patch materials.  An exception in `reorient_scene`
propagates, skipping the materials stage, exactly as in the Python. -/
noncomputable def modify_core (g : Gltf) (metallic roughness : ℝ)
    (override reorient : Bool) : Except PyErr Gltf :=
  match (if reorient then reorient_scene g else .ok g) with
  | .error e => .error e
  | .ok g1 => .ok (apply_factors g1 metallic roughness override)

/-!  Theorems settling the specification claims.  -/

/-- Claim C1: the spec asserts that `multiply_quaternions` computes the
Hamilton product of quaternions stored in document order `[x, y, z, w]`
(scalar part at index 3).  It does not: the code's formula is the Hamilton
product with the scalar part at index 0.  At `q1 = q2 = [1, 0, 0, 0]`
(a 180-degree rotation about X under the document convention, with all
products exact even in floating point) the code returns `[1, 0, 0, 0]`
while the spec's `[x, y, z, w]` formula gives `[0, 0, 0, -1]`. -/
theorem C1_quaternion_component_order_bug :
    multiply_quaternions ⟨1, 0, 0, 0⟩ ⟨1, 0, 0, 0⟩ = ⟨1, 0, 0, 0⟩ ∧
    hamilton_xyzw ⟨1, 0, 0, 0⟩ ⟨1, 0, 0, 0⟩ = ⟨0, 0, 0, -1⟩ ∧
    multiply_quaternions ⟨1, 0, 0, 0⟩ ⟨1, 0, 0, 0⟩ ≠
      hamilton_xyzw ⟨1, 0, 0, 0⟩ ⟨1, 0, 0, 0⟩ := by
  refine ⟨by simp [multiply_quaternions], by simp [hamilton_xyzw], ?_⟩
  simp [multiply_quaternions, hamilton_xyzw]

/-- Claim C2: the spec asserts that `(0, 0, 0, 1)` (the `[x, y, z, w]`
identity) is neutral for `multiply_quaternions` on both sides.  It is not:
already `multiply_quaternions(identity, identity) = [-1, 0, 0, 0]`, and for
`q = [1, 0, 0, 0]` both `compose(q, identity)` and `compose(identity, q)`
return the identity instead of `q`.  (All products involved are exact in
floating point, so no tolerance can rescue the claim.) -/
theorem C2_identity_quaternion_not_neutral :
    multiply_quaternions identity_xyzw identity_xyzw = ⟨-1, 0, 0, 0⟩ ∧
    multiply_quaternions identity_xyzw identity_xyzw ≠ identity_xyzw ∧
    multiply_quaternions ⟨1, 0, 0, 0⟩ identity_xyzw ≠ ⟨1, 0, 0, 0⟩ ∧
    multiply_quaternions identity_xyzw ⟨1, 0, 0, 0⟩ ≠ ⟨1, 0, 0, 0⟩ := by
  refine ⟨by simp [multiply_quaternions, identity_xyzw], ?_, ?_, ?_⟩ <;>
    simp [multiply_quaternions, identity_xyzw]

/-- The document of claim C3: one scene whose single top-level node already
carries the identity rotation `[0, 0, 0, 1]`. -/
noncomputable def gltfC3 : Gltf :=
  { scenes := some [{ nodes := some [0], extra := [] }]
    nodes := some [{ name := none, rotation := some identity_xyzw,
                     children := none, extra := [] }]
    materials := none
    extra := [] }

/-- Claim C3: for a single-root scene whose root has the identity rotation
`[0, 0, 0, 1]`, the spec says reorientation leaves `FIXED_X90 =
[√0.5, 0, 0, √0.5]`.  The code instead stores
`multiply_quaternions([0,0,0,1], FIXED_X90) = [-√0.5, 0, 0, √0.5]`, the
inverse rotation, because `multiply_quaternions` places the scalar at index
0 while the document stores it at index 3; the spec's own `[x, y, z, w]`
Hamilton product would indeed leave `FIXED_X90` unchanged. -/
theorem C3_existing_rotation_not_fixed_x90 :
    reorient_scene gltfC3 =
      .ok { gltfC3 with
            nodes := some [{ name := none,
                             rotation := some ⟨-Real.sqrt 0.5, 0, 0, Real.sqrt 0.5⟩,
                             children := none, extra := [] }] } ∧
    hamilton_xyzw identity_xyzw NINETY_DEG_X_ROTATION = NINETY_DEG_X_ROTATION ∧
    (⟨-Real.sqrt 0.5, 0, 0, Real.sqrt 0.5⟩ : Quat) ≠ NINETY_DEG_X_ROTATION := by
  have hpos : 0 < Real.sqrt 0.5 := Real.sqrt_pos.mpr (by norm_num)
  refine ⟨?_, ?_, ?_⟩
  · simp [reorient_scene, gltfC3, rotate_root, multiply_quaternions,
      identity_xyzw, NINETY_DEG_X_ROTATION]
  · simp [hamilton_xyzw, identity_xyzw, NINETY_DEG_X_ROTATION]
  · intro h
    have h0 := congrArg Quat.c0 h
    simp only [NINETY_DEG_X_ROTATION] at h0
    linarith

/-- The document of claim C8: one scene, one top-level node, no rotation. -/
noncomputable def gltfC8 : Gltf :=
  { scenes := some [{ nodes := some [0], extra := [] }]
    nodes := some [{ name := none, rotation := none, children := none, extra := [] }]
    materials := none
    extra := [] }

/-- Claim C8: reorienting twice is indeed not idempotent, but the spec's
claimed outcome is wrong.  Applying `reorient_scene` twice to a single-root
scene with no prior rotation stores
`multiply_quaternions(FIXED_X90, FIXED_X90) = [0, 0, 0, 1]` — under the
document's `[x, y, z, w]` convention the identity, not the claimed
`[1, 0, 0, 0]` (180 degrees about X).  The result still differs from the
single-application result `FIXED_X90`, so non-idempotence holds. -/
theorem C8_double_reorient_not_180_about_x :
    (reorient_scene gltfC8).bind reorient_scene =
      .ok { gltfC8 with
            nodes := some [{ name := none, rotation := some ⟨0, 0, 0, 1⟩,
                             children := none, extra := [] }] } ∧
    ((⟨0, 0, 0, 1⟩ : Quat) ≠ ⟨1, 0, 0, 0⟩) ∧
    ((⟨0, 0, 0, 1⟩ : Quat) ≠ NINETY_DEG_X_ROTATION) := by
  have hpos : 0 < Real.sqrt 0.5 := Real.sqrt_pos.mpr (by norm_num)
  have hsq : Real.sqrt 0.5 * Real.sqrt 0.5 = 0.5 :=
    Real.mul_self_sqrt (by norm_num)
  refine ⟨?_, ?_, ?_⟩
  · simp [reorient_scene, gltfC8, rotate_root, multiply_quaternions,
      NINETY_DEG_X_ROTATION, Except.bind, hsq]
    norm_num
  · intro h
    have h0 := congrArg Quat.c3 h
    simp at h0
  · intro h
    have h0 := congrArg Quat.c0 h
    simp only [NINETY_DEG_X_ROTATION] at h0
    linarith

/-- Claim C9: in a single-root scene whose root node has no `rotation`
field, `reorient_scene` sets that node's rotation to
`NINETY_DEG_X_ROTATION = [sqrt 0.5, 0, 0, sqrt 0.5]` (in `[x, y, z, w]`
order, the fixed 90-degree rotation about X), leaving the node's other
fields and the rest of the document unchanged. -/
theorem C9_single_root_no_rotation (g : Gltf) (scene0 : Scene)
    (rest : List Scene) (i : ℕ) (nodes : List Node)
    (hs : g.scenes = some (scene0 :: rest))
    (hn : scene0.nodes = some [i])
    (hg : g.nodes = some nodes)
    (hi : i < nodes.length)
    (hr : nodes[i].rotation = none) :
    reorient_scene g =
      .ok { g with
            nodes := some (nodes.set i
              { nodes[i] with rotation := some NINETY_DEG_X_ROTATION }) } ∧
    NINETY_DEG_X_ROTATION = ⟨Real.sqrt 0.5, 0, 0, Real.sqrt 0.5⟩ := by
  refine ⟨?_, rfl⟩
  simp [reorient_scene, hs, hn, hg, hi, rotate_root, hr]

/-- The document of claim C9's witness: one scene, one rotation-free node. -/
def gltfC9 : Gltf :=
  { scenes := some [{ nodes := some [0], extra := [] }]
    nodes := some [{ name := none, rotation := none, children := none, extra := [] }]
    materials := none
    extra := [] }

/-- Witness for C9 at a concrete single-root document. -/
theorem C9_single_root_no_rotation_witness :
    reorient_scene gltfC9 =
      .ok { gltfC9 with
            nodes := some [{ name := none, rotation := some NINETY_DEG_X_ROTATION,
                             children := none, extra := [] }] } ∧
    NINETY_DEG_X_ROTATION = ⟨Real.sqrt 0.5, 0, 0, Real.sqrt 0.5⟩ := by
  have h := C9_single_root_no_rotation gltfC9 { nodes := some [0], extra := [] } [] 0
    [{ name := none, rotation := none, children := none, extra := [] }]
    rfl rfl rfl (by norm_num) rfl
  simpa using h

/-- The synthetic root node built in the multi-root branch of
`reorient_scene`, with the original top-level index list as children. -/
noncomputable def reoriented_root (children : List ℕ) : Node :=
  { name := some "ReorientedRoot"
    rotation := some NINETY_DEG_X_ROTATION
    children := some children
    extra := [] }

/-- Claim C4: on a first scene with more than one top-level node,
`reorient_scene` appends exactly one node
`{name: "ReorientedRoot", rotation: FIXED_X90, children: original list}`
at index `N` = prior length of the node sequence, replaces the scene's node
list with `[N]`, and leaves every pre-existing node (and every other scene
and document field) unchanged. -/
theorem C4_multi_root_synthesis (g : Gltf) (scene0 : Scene) (rest : List Scene)
    (i j : ℕ) (is : List ℕ) (nodes : List Node)
    (hs : g.scenes = some (scene0 :: rest))
    (hn : scene0.nodes = some (i :: j :: is))
    (hg : g.nodes = some nodes) :
    reorient_scene g =
      .ok { g with
            scenes := some ({ scene0 with nodes := some [nodes.length] } :: rest)
            nodes := some (nodes ++ [reoriented_root (i :: j :: is)]) } ∧
    ∀ k, k < nodes.length →
      (nodes ++ [reoriented_root (i :: j :: is)])[k]? = nodes[k]? := by
  refine ⟨?_, ?_⟩
  · simp [reorient_scene, hs, hn, hg, reoriented_root]
  · intro k hk
    simp [List.getElem?_append, hk]

def nodeA : Node := { name := some "A", rotation := none, children := none, extra := [] }
def nodeB : Node := { name := some "B", rotation := none, children := none, extra := [] }
def nodeC : Node := { name := some "C", rotation := none, children := none, extra := [] }

/-- The document of claim C4's witness: a scene with three root nodes. -/
def gltfC4 : Gltf :=
  { scenes := some [{ nodes := some [0, 1, 2], extra := [] }]
    nodes := some [nodeA, nodeB, nodeC]
    materials := none
    extra := [] }

/-- Witness for C4 at a concrete three-root document. -/
theorem C4_multi_root_synthesis_witness :
    reorient_scene gltfC4 =
      .ok { gltfC4 with
            scenes := some [{ nodes := some [3], extra := [] }]
            nodes := some ([nodeA, nodeB, nodeC] ++ [reoriented_root [0, 1, 2]]) } ∧
    ∀ k, k < 3 →
      ([nodeA, nodeB, nodeC] ++ [reoriented_root [0, 1, 2]])[k]? =
        [nodeA, nodeB, nodeC][k]? :=
  C4_multi_root_synthesis gltfC4 { nodes := some [0, 1, 2], extra := [] } []
    0 1 [2] [nodeA, nodeB, nodeC] rfl rfl rfl

/-- Claim C5: the materials stage patches every material of the material
list; each patched material unconditionally gains a `pbrMetallicRoughness`
substructure (built from the existing one, or empty if absent) whose
`metallicFactor` becomes `max(0, min(1, metallic))` exactly when the field
was absent or `override` is true — and is otherwise left untouched — with
the identical independent rule for `roughnessFactor`; out-of-range inputs
are clamped, never rejected (the function is total), and all other parts of
each material are unchanged. -/
theorem C5_apply_factors_policy (g : Gltf) (metallic roughness : ℝ) (ov : Bool) :
    (apply_factors g metallic roughness ov).materials
      = g.materials.map (List.map (patch_material metallic roughness ov)) ∧
    ∀ m : Material,
      patch_material metallic roughness ov m =
        { m with
          pbrMetallicRoughness := some
            { metallicFactor :=
                if (m.pbrMetallicRoughness.getD Pbr.empty).metallicFactor = none ∨ ov = true
                then some (max 0 (min 1 metallic))
                else (m.pbrMetallicRoughness.getD Pbr.empty).metallicFactor
              roughnessFactor :=
                if (m.pbrMetallicRoughness.getD Pbr.empty).roughnessFactor = none ∨ ov = true
                then some (max 0 (min 1 roughness))
                else (m.pbrMetallicRoughness.getD Pbr.empty).roughnessFactor
              extra := (m.pbrMetallicRoughness.getD Pbr.empty).extra } } := by
  constructor
  · cases hm : g.materials <;> simp [apply_factors, hm]
  · intro m
    simp only [patch_material, clamp01]
    split_ifs <;> simp_all

/-- The structural-absence guard of `reorient_scene`:
`not gltf_data.get('scenes') or not gltf_data['scenes'][0].get('nodes')`
— the scene list is missing or empty, or the first scene's node list is
missing or empty. -/
def scenes_guard_falsy (g : Gltf) : Prop :=
  g.scenes = none ∨ g.scenes = some [] ∨
  ∃ s rest, g.scenes = some (s :: rest) ∧ (s.nodes = none ∨ s.nodes = some [])

/-- When the guard fires, `reorient_scene` is a no-op returning the
document unchanged. -/
theorem reorient_scene_of_guard (g : Gltf) (h : scenes_guard_falsy g) :
    reorient_scene g = .ok g := by
  rcases h with h | h | ⟨s, rest, hs, hn | hn⟩ <;>
    simp [reorient_scene, *]

/-- Sufficient (and, as proved later, necessary) condition for
`reorient_scene` not to raise: either the guard fires, or the document has
a node sequence and, when the first scene has exactly one node index, that
index is in range. -/
def ReorientSafe (g : Gltf) : Prop :=
  scenes_guard_falsy g ∨
  ∃ nodes : List Node, g.nodes = some nodes ∧
    ∀ s rest i, g.scenes = some (s :: rest) → s.nodes = some [i] →
      i < nodes.length

theorem reorient_scene_ok_of_safe (g : Gltf) (h : ReorientSafe g) :
    ∃ g2, reorient_scene g = .ok g2 := by
  rcases h with h | ⟨nodes, hnd, hvalid⟩
  · exact ⟨g, reorient_scene_of_guard g h⟩
  cases hs : g.scenes with
  | none => exact ⟨g, by simp [reorient_scene, hs]⟩
  | some l =>
    cases l with
    | nil => exact ⟨g, by simp [reorient_scene, hs]⟩
    | cons s rest =>
      cases hn : s.nodes with
      | none => exact ⟨g, by simp [reorient_scene, hs, hn]⟩
      | some ns =>
        cases ns with
        | nil => exact ⟨g, by simp [reorient_scene, hs, hn]⟩
        | cons i is =>
          cases is with
          | nil =>
            have hi : i < nodes.length := hvalid s rest i hs hn
            exact ⟨{ g with nodes := some (nodes.set i (rotate_root nodes[i])) },
              by simp [reorient_scene, hs, hn, hnd, hi]⟩
          | cons j js =>
            exact ⟨{ g with
                     scenes := some ({ s with nodes := some [nodes.length] } :: rest)
                     nodes := some (nodes ++
                       [{ name := some "ReorientedRoot"
                          rotation := some NINETY_DEG_X_ROTATION
                          children := some (i :: j :: js)
                          extra := [] }]) },
              by simp [reorient_scene, hs, hn, hnd]⟩

/-- `rotate_root` only rewrites the `rotation` field. -/
theorem rotate_root_eq (n : Node) :
    ∃ rot, rotate_root n = { n with rotation := some rot } := by
  cases hr : n.rotation with
  | none => exact ⟨NINETY_DEG_X_ROTATION, by simp [rotate_root, hr]⟩
  | some r =>
    exact ⟨multiply_quaternions r NINETY_DEG_X_ROTATION, by simp [rotate_root, hr]⟩

/-- Frame property of a successful `reorient_scene`: `materials` and every
opaque `extra` key of the document are untouched; `scenes` changes at most
in the first scene's `nodes` list; the node sequence changes by one
appended node or by one node's `rotation` field. -/
theorem reorient_scene_frame (g g2 : Gltf) (h : reorient_scene g = .ok g2) :
    g2.materials = g.materials ∧ g2.extra = g.extra ∧
    (g2.scenes = g.scenes ∨ ∃ s rest ns, g.scenes = some (s :: rest) ∧
        g2.scenes = some ({ s with nodes := ns } :: rest)) ∧
    (g2.nodes = g.nodes ∨
      (∃ nodes r, g.nodes = some nodes ∧ g2.nodes = some (nodes ++ [r])) ∨
      (∃ nodes idx, g.nodes = some nodes ∧ ∃ hidx : idx < nodes.length,
        ∃ rot, g2.nodes = some (nodes.set idx
          { nodes[idx] with rotation := some rot }))) := by
  cases hs : g.scenes with
  | none =>
    simp [reorient_scene, hs] at h
    subst h
    exact ⟨rfl, rfl, Or.inl hs, Or.inl rfl⟩
  | some l =>
    cases l with
    | nil =>
      simp [reorient_scene, hs] at h
      subst h
      exact ⟨rfl, rfl, Or.inl hs, Or.inl rfl⟩
    | cons s rest =>
      cases hn : s.nodes with
      | none =>
        simp [reorient_scene, hs, hn] at h
        subst h
        exact ⟨rfl, rfl, Or.inl hs, Or.inl rfl⟩
      | some ns =>
        cases ns with
        | nil =>
          simp [reorient_scene, hs, hn] at h
          subst h
          exact ⟨rfl, rfl, Or.inl hs, Or.inl rfl⟩
        | cons i is =>
          cases is with
          | nil =>
            cases hnd : g.nodes with
            | none => simp [reorient_scene, hs, hn, hnd] at h
            | some nodes =>
              by_cases hi : i < nodes.length
              · simp [reorient_scene, hs, hn, hnd, hi] at h
                obtain ⟨rot, hrot⟩ := rotate_root_eq nodes[i]
                subst h
                refine ⟨rfl, rfl, Or.inl rfl,
                  Or.inr (Or.inr ⟨nodes, i, rfl, hi, rot, ?_⟩)⟩
                rw [hrot]
              · simp [reorient_scene, hs, hn, hnd, hi] at h
          | cons j js =>
            cases hnd : g.nodes with
            | none => simp [reorient_scene, hs, hn, hnd] at h
            | some nodes =>
              simp [reorient_scene, hs, hn, hnd] at h
              subst h
              exact ⟨rfl, rfl,
                Or.inr ⟨s, rest, some [nodes.length], rfl, rfl⟩,
                Or.inr (Or.inl ⟨nodes, _, rfl, rfl⟩)⟩

/-- Claim C6: under each structural-absence condition the affected stage is
a no-op that raises nothing while the other stage still runs: a falsy
scene guard makes `reorient_scene` return the document unchanged and the
materials stage still executes; an absent material list makes the
materials stage the identity so the pipeline output is exactly the
reorientation result; and for well-formed input (`ReorientSafe`, i.e.
every node index the single-root branch dereferences exists) the whole
pipeline returns `.ok` for both settings of the reorient flag. -/
theorem C6_structural_absence_noop (g : Gltf) (metallic roughness : ℝ)
    (ov : Bool) :
    (scenes_guard_falsy g → reorient_scene g = .ok g) ∧
    (g.materials = none → apply_factors g metallic roughness ov = g) ∧
    (scenes_guard_falsy g →
      modify_core g metallic roughness ov true =
        .ok (apply_factors g metallic roughness ov)) ∧
    (g.materials = none →
      modify_core g metallic roughness ov true = reorient_scene g) ∧
    (ReorientSafe g → ∀ r : Bool,
      ∃ g2, modify_core g metallic roughness ov r = .ok g2) := by
  refine ⟨fun h => reorient_scene_of_guard g h, ?_, ?_, ?_, ?_⟩
  · intro h
    simp [apply_factors, h]
  · intro h
    simp [modify_core, reorient_scene_of_guard g h]
  · intro h
    cases hro : reorient_scene g with
    | error e => simp [modify_core, hro]
    | ok g1 =>
      have h1 : g1.materials = g.materials := (reorient_scene_frame g g1 hro).1
      rw [h] at h1
      simp [modify_core, hro, apply_factors, h1]
  · intro hsafe r
    cases r with
    | false => exact ⟨apply_factors g metallic roughness ov, by simp [modify_core]⟩
    | true =>
      obtain ⟨g2, hg2⟩ := reorient_scene_ok_of_safe g hsafe
      exact ⟨apply_factors g2 metallic roughness ov, by simp [modify_core, hg2]⟩

/-- A document with none of the optional top-level keys. -/
def gltfEmpty : Gltf := { scenes := none, nodes := none, materials := none, extra := [] }

/-- Witness for C6 at a concrete document lacking scenes and materials. -/
theorem C6_structural_absence_noop_witness :
    reorient_scene gltfEmpty = .ok gltfEmpty ∧
    apply_factors gltfEmpty (1/10) (1/10) false = gltfEmpty ∧
    modify_core gltfEmpty (1/10) (1/10) false true =
      .ok (apply_factors gltfEmpty (1/10) (1/10) false) ∧
    modify_core gltfEmpty (1/10) (1/10) false true = reorient_scene gltfEmpty ∧
    (∃ g2, modify_core gltfEmpty (1/10) (1/10) false true = .ok g2) := by
  have h := C6_structural_absence_noop gltfEmpty (1/10) (1/10) false
  exact ⟨h.1 (Or.inl rfl), h.2.1 rfl, h.2.2.1 (Or.inl rfl), h.2.2.2.1 rfl,
    h.2.2.2.2 (Or.inl (Or.inl rfl)) true⟩

/-- `patch_material` keeps a material's opaque keys and the opaque keys of
its (possibly fresh) `pbrMetallicRoughness` substructure. -/
theorem patch_material_frame (met rough : ℝ) (ov : Bool) (m : Material) :
    (patch_material met rough ov m).extra = m.extra ∧
    ∃ pbr2, (patch_material met rough ov m).pbrMetallicRoughness = some pbr2 ∧
      pbr2.extra = (m.pbrMetallicRoughness.getD Pbr.empty).extra := by
  simp only [patch_material]
  split_ifs <;> simp

/-- `apply_factors` touches only the `materials` field of the document. -/
theorem apply_factors_projections (g : Gltf) (met rough : ℝ) (ov : Bool) :
    (apply_factors g met rough ov).scenes = g.scenes ∧
    (apply_factors g met rough ov).nodes = g.nodes ∧
    (apply_factors g met rough ov).extra = g.extra := by
  cases hm : g.materials <;> simp [apply_factors, hm]

/-- Claim C7: a successful reorient-then-materials run changes only the
contracted locations — the first scene's `nodes` list, the node sequence
(one appended node or one node's `rotation`), and each material's
`pbrMetallicRoughness` factors — while every opaque (`extra`) key at
document, scene, node, material and pbr level keeps its original value. -/
theorem C7_frame_preservation (g : Gltf) (metallic roughness : ℝ) (ov : Bool)
    (g2 : Gltf) (h : modify_core g metallic roughness ov true = .ok g2) :
    g2.extra = g.extra ∧
    (g2.scenes = g.scenes ∨ ∃ s rest ns, g.scenes = some (s :: rest) ∧
        g2.scenes = some ({ s with nodes := ns } :: rest)) ∧
    (g2.nodes = g.nodes ∨
      (∃ nodes r, g.nodes = some nodes ∧ g2.nodes = some (nodes ++ [r])) ∨
      (∃ nodes idx, g.nodes = some nodes ∧ ∃ hidx : idx < nodes.length,
        ∃ rot, g2.nodes = some (nodes.set idx
          { nodes[idx] with rotation := some rot }))) ∧
    ((g.materials = none ∧ g2.materials = none) ∨
      ∃ mats, g.materials = some mats ∧
        g2.materials = some (mats.map (patch_material metallic roughness ov)) ∧
        List.Forall₂ (fun a b => b.extra = a.extra ∧ ∃ pbr2,
            b.pbrMetallicRoughness = some pbr2 ∧
            pbr2.extra = (a.pbrMetallicRoughness.getD Pbr.empty).extra)
          mats (mats.map (patch_material metallic roughness ov))) := by
  cases hro : reorient_scene g with
  | error e => simp [modify_core, hro] at h
  | ok g1 =>
    simp [modify_core, hro] at h
    obtain ⟨hmat, hextra, hscenes, hnodes⟩ := reorient_scene_frame g g1 hro
    obtain ⟨hps, hpn, hpe⟩ := apply_factors_projections g1 metallic roughness ov
    subst h
    refine ⟨hpe.trans hextra, ?_, ?_, ?_⟩
    · rw [hps]
      exact hscenes
    · rw [hpn]
      exact hnodes
    · cases hm : g.materials with
      | none =>
        rw [hm] at hmat
        exact Or.inl ⟨rfl, by simp [apply_factors, hmat]⟩
      | some mats =>
        rw [hm] at hmat
        refine Or.inr ⟨mats, rfl, by simp [apply_factors, hmat], ?_⟩
        rw [List.forall₂_map_right_iff, List.forall₂_same]
        intro m _
        exact patch_material_frame metallic roughness ov m

/-- Witness for C7 at a concrete document (a successful run on the empty
document, which the pipeline maps to itself). -/
theorem C7_frame_preservation_witness :
    modify_core gltfEmpty (1/10) (1/10) false true = .ok gltfEmpty ∧
    (gltfEmpty.extra = gltfEmpty.extra ∧
     (gltfEmpty.scenes = gltfEmpty.scenes ∨
       ∃ s rest ns, gltfEmpty.scenes = some (s :: rest) ∧
         gltfEmpty.scenes = some ({ s with nodes := ns } :: rest)) ∧
     (gltfEmpty.nodes = gltfEmpty.nodes ∨
       (∃ nodes r, gltfEmpty.nodes = some nodes ∧
         gltfEmpty.nodes = some (nodes ++ [r])) ∨
       (∃ nodes idx, gltfEmpty.nodes = some nodes ∧ ∃ hidx : idx < nodes.length,
         ∃ rot, gltfEmpty.nodes = some (nodes.set idx
           { nodes[idx] with rotation := some rot }))) ∧
     ((gltfEmpty.materials = none ∧ gltfEmpty.materials = none) ∨
       ∃ mats, gltfEmpty.materials = some mats ∧
         gltfEmpty.materials = some (mats.map (patch_material (1/10) (1/10) false)) ∧
         List.Forall₂ (fun a b => b.extra = a.extra ∧ ∃ pbr2,
             b.pbrMetallicRoughness = some pbr2 ∧
             pbr2.extra = (a.pbrMetallicRoughness.getD Pbr.empty).extra)
           mats (mats.map (patch_material (1/10) (1/10) false)))) :=
  ⟨rfl, C7_frame_preservation gltfEmpty (1/10) (1/10) false gltfEmpty rfl⟩

/-- The node indices referenced by the first scene's top-level node list. -/
def first_scene_refs (g : Gltf) : List ℕ :=
  match g.scenes with
  | some (s :: _) => s.nodes.getD []
  | _ => []

/-- Every node index referenced by the first scene is a valid position in
the document's node sequence. -/
def all_refs_valid (g : Gltf) : Prop :=
  ∀ i ∈ first_scene_refs g, i < (g.nodes.getD []).length

/-- A first scene referencing nodes 0 and 1 while the node sequence exists
but is empty: the multi-root branch runs without touching those indices. -/
def gltfC10multi : Gltf :=
  { scenes := some [{ nodes := some [0, 1], extra := [] }]
    nodes := some []
    materials := none
    extra := [] }

/-- A first scene with one node index but no top-level `nodes` key. -/
def gltfC10missing : Gltf :=
  { scenes := some [{ nodes := some [0], extra := [] }]
    nodes := none
    materials := none
    extra := [] }

/-- A first scene whose single node index is out of range for the (empty)
node sequence. -/
def gltfC10oob : Gltf :=
  { scenes := some [{ nodes := some [0], extra := [] }]
    nodes := some []
    materials := none
    extra := [] }

/-- Claim C10, counterexample to its final clause: `reorient_scene` can be
exception-free on a document whose referenced node indices are invalid.
On `gltfC10multi` the first scene references nodes 0 and 1, the node
sequence is empty, yet the multi-root branch succeeds (it never
dereferences the referenced indices). -/
theorem C10_counterexample_exception_free_with_invalid_refs :
    (∃ g2, reorient_scene gltfC10multi = .ok g2) ∧
    ¬ all_refs_valid gltfC10multi := by
  constructor
  · exact ⟨{ gltfC10multi with
             scenes := some [{ nodes := some [0], extra := [] }]
             nodes := some [{ name := some "ReorientedRoot"
                              rotation := some NINETY_DEG_X_ROTATION
                              children := some [0, 1]
                              extra := [] }] }, by
      simp [reorient_scene, gltfC10multi]⟩
  · intro hv
    have h0 := hv 0 (by simp [first_scene_refs, gltfC10multi])
    simp [gltfC10multi] at h0

/-- Claim C10, amended: `reorient_scene` succeeds exactly on `ReorientSafe`
documents — the guard fires, or the node sequence exists and a single-root
scene's index is in range.  A scene with nodes but no top-level `nodes`
sequence raises `KeyError('nodes')`; a single-root scene with an
out-of-range index raises `IndexError`; invalid references in the
multi-root case do NOT raise. -/
theorem C10_amended_raise_characterization :
    (∀ g : Gltf, (∃ g2, reorient_scene g = .ok g2) ↔ ReorientSafe g) ∧
    reorient_scene gltfC10missing = .error (PyErr.keyError "nodes") ∧
    reorient_scene gltfC10oob = .error PyErr.indexError := by
  refine ⟨?_, by simp [reorient_scene, gltfC10missing], by simp [reorient_scene, gltfC10oob]⟩
  intro g
  constructor
  · rintro ⟨g2, h⟩
    cases hs : g.scenes with
    | none => exact Or.inl (Or.inl hs)
    | some l =>
      cases l with
      | nil => exact Or.inl (Or.inr (Or.inl hs))
      | cons s rest =>
        cases hn : s.nodes with
        | none => exact Or.inl (Or.inr (Or.inr ⟨s, rest, hs, Or.inl hn⟩))
        | some ns =>
          cases ns with
          | nil => exact Or.inl (Or.inr (Or.inr ⟨s, rest, hs, Or.inr hn⟩))
          | cons i is =>
            cases is with
            | nil =>
              cases hnd : g.nodes with
              | none => simp [reorient_scene, hs, hn, hnd] at h
              | some nodes =>
                by_cases hi : i < nodes.length
                · refine Or.inr ⟨nodes, hnd, ?_⟩
                  intro s2 rest2 i2 hs2 hn2
                  rw [hs] at hs2
                  injection hs2 with hs3
                  injection hs3 with hs4 hs5
                  subst hs4
                  rw [hn] at hn2
                  injection hn2 with hn3
                  injection hn3 with hn4 hn5
                  subst hn4
                  exact hi
                · simp [reorient_scene, hs, hn, hnd, hi] at h
            | cons j js =>
              cases hnd : g.nodes with
              | none => simp [reorient_scene, hs, hn, hnd] at h
              | some nodes =>
                refine Or.inr ⟨nodes, hnd, ?_⟩
                intro s2 rest2 i2 hs2 hn2
                rw [hs] at hs2
                injection hs2 with hs3
                injection hs3 with hs4 hs5
                subst hs4
                rw [hn] at hn2
                injection hn2 with hn3
                simp at hn3
  · exact fun hsafe => reorient_scene_ok_of_safe g hsafe
